import Mathlib

/-!
Verification development for the real-time data distribution layer of the
SIH2025 dashboard: a shallow embedding of
`frontend/src/services/WebSocketService.ts` (the singleton connection
manager) and of the `send` callback of `frontend/src/hooks/useWebSocket.ts`
(the subscription adapter), together with proofs about their behaviour.

The manager is event-driven browser code; we embed it as a labelled
transition system.  Pure manager state (current socket, url, attempt
counter, pending reconnect timer) is carried in a record together with
observation logs (values broadcast to connection-state callbacks, the
delays of scheduled reconnect timers, the number of timers scheduled since
the last successful open).  Transport events (open / close / message /
timer expiry) are environment choices and form the step relation.  The
browser WebSocket object is modelled by its readyState; `close()` on a
CONNECTING or OPEN socket moves it to CLOSING, and the close event (which
sets CLOSED and runs the manager's onclose handler) is delivered later by
the environment, as in the WHATWG event model.
-/

set_option autoImplicit false

namespace WS

/-- readyState values of a browser WebSocket
(CONNECTING, OPEN, CLOSING, CLOSED). -/
inductive ReadyState where
  | connecting
  | opened
  | closing
  | closed
deriving DecidableEq, Repr

/-- A socket created by the manager: the url captured by
`new WebSocket(this.url)` and its current readyState. -/
abbrev Sock := String × ReadyState

/-- `private maxReconnectAttempts = 10`. -/
def maxReconnectAttempts : Nat := 10

/-- The fixed delay passed to `setTimeout` in `scheduleReconnect` (2000 ms). -/
def reconnectInterval : Nat := 2000

/-- State of the `WebSocketService` singleton.

* `socketId` — `this.socket`, as an index into `sockets` (`none` = `null`);
* `sockets` — every socket the manager ever created, with its readyState
  (old sockets stay in the list so we can state that they are closed);
* `url`, `reconnectAttempts`, `timerPending` — the corresponding fields /
  the pending `setTimeout` of `scheduleReconnect`;
* `notifications` — log: one entry per `connectionCallbacks.forEach(cb => cb(b))`
  broadcast, recording the boolean delivered to every registered callback;
* `scheduleLog` — log: the delay of each reconnect timer ever scheduled;
* `scheduledSinceOpen` — log: how many reconnect timers were scheduled since
  the last successful open (reset when `onopen` resets the counter). -/
structure WSState where
  socketId : Option Nat
  sockets : List Sock
  url : String
  reconnectAttempts : Nat
  timerPending : Bool
  notifications : List Bool
  scheduleLog : List Nat
  scheduledSinceOpen : Nat
deriving DecidableEq, Repr

/-- `scheduleReconnect()`: increment `this.reconnectAttempts`; if the new
value is `<= maxReconnectAttempts`, schedule `connect` via a 2000 ms
`setTimeout`, otherwise only log "Max reconnect attempts reached". -/
def scheduleReconnect (s : WSState) : WSState :=
  if s.reconnectAttempts + 1 ≤ maxReconnectAttempts then
    { s with reconnectAttempts := s.reconnectAttempts + 1
             timerPending := true
             scheduleLog := s.scheduleLog ++ [reconnectInterval]
             scheduledSinceOpen := s.scheduledSinceOpen + 1 }
  else
    { s with reconnectAttempts := s.reconnectAttempts + 1 }

/-- `connect()`: `this.socket = new WebSocket(this.url)` inside try/catch.
If the constructor throws synchronously (`ctorThrows`), `this.socket` is
left unchanged and `scheduleReconnect()` runs; otherwise a fresh socket in
state CONNECTING against the current url becomes `this.socket`.
The `onopen` / `onmessage` / `onclose` assignments are reflected in the
step relation below. -/
def connect (s : WSState) (ctorThrows : Bool) : WSState :=
  if ctorThrows then scheduleReconnect s
  else
    { s with socketId := some s.sockets.length
             sockets := s.sockets ++ [(s.url, ReadyState.connecting)] }

/-- The `onopen` handler: `this.reconnectAttempts = 0` and then
`this.connectionCallbacks.forEach(cb => cb(true))`. -/
def onopen (s : WSState) : WSState :=
  { s with reconnectAttempts := 0
           scheduledSinceOpen := 0
           notifications := s.notifications ++ [true] }

/-- The `onclose` handler: `this.connectionCallbacks.forEach(cb => cb(false))`
(unconditionally), a console warning, then `this.scheduleReconnect()`. -/
def onclose (s : WSState) : WSState :=
  scheduleReconnect { s with notifications := s.notifications ++ [false] }

/-- Overwrite the readyState of socket `i`. -/
def setReady : List Sock → Nat → ReadyState → List Sock
  | [], _, _ => []
  | p :: rest, 0, r => (p.1, r) :: rest
  | p :: rest, Nat.succ i, r => p :: setReady rest i r

/-- `WebSocket.close()` on socket `i`: a CONNECTING or OPEN socket moves to
CLOSING (the close event is delivered later); on a CLOSING or CLOSED socket
the call does nothing. -/
def closeSocket (l : List Sock) (i : Nat) : List Sock :=
  match l[i]? with
  | some (_, ReadyState.connecting) => setReady l i ReadyState.closing
  | some (_, ReadyState.opened) => setReady l i ReadyState.closing
  | _ => l

/-- `changeUrl(newUrl)`: no-op when equal to the current url; otherwise
store the new url and call `this.socket?.close()`. -/
def changeUrl (s : WSState) (newUrl : String) : WSState :=
  if s.url = newUrl then s
  else
    match s.socketId with
    | none => { s with url := newUrl }
    | some i => { s with url := newUrl, sockets := closeSocket s.sockets i }

/-- `isConnected()`: `this.socket?.readyState === WebSocket.OPEN`. -/
def isConnected (s : WSState) : Bool :=
  match s.socketId with
  | none => false
  | some i =>
    match s.sockets[i]? with
    | some (_, r) => r = ReadyState.opened
    | none => false

/-- The private constructor: store the url and call `connect()`. -/
def construct (u : String) (ctorThrows : Bool) : WSState :=
  connect
    { socketId := none, sockets := [], url := u, reconnectAttempts := 0,
      timerPending := false, notifications := [], scheduleLog := [],
      scheduledSinceOpen := 0 }
    ctorThrows

/-- One event-loop turn of the manager.  The environment chooses which
enabled transport event fires:

* `timerFire` — a pending reconnect timer expires and runs `connect()`
  (the environment chooses whether `new WebSocket` throws synchronously);
* `sockOpen` — a CONNECTING socket completes its handshake: readyState
  becomes OPEN and the manager's `onopen` handler runs;
* `sockClose` — a not-yet-closed socket's connection fails or closes:
  readyState becomes CLOSED and the `onclose` handler runs;
* `sockMsg` — an OPEN socket delivers a frame; the `onmessage` handler
  never touches manager state (its callback behaviour is modelled
  separately by `onmessageStep`);
* `userChangeUrl` — some caller invokes `changeUrl` (also the path taken
  by `getInstance` when handed a different url). -/
inductive Step : WSState → WSState → Prop where
  | timerFire (s : WSState) (ctorThrows : Bool) :
      s.timerPending = true →
      Step s (connect { s with timerPending := false } ctorThrows)
  | sockOpen (s : WSState) (i : Nat) :
      (s.sockets[i]?).map Prod.snd = some ReadyState.connecting →
      Step s (onopen { s with sockets := setReady s.sockets i ReadyState.opened })
  | sockClose (s : WSState) (i : Nat) (r : ReadyState) :
      (s.sockets[i]?).map Prod.snd = some r →
      r ≠ ReadyState.closed →
      Step s (onclose { s with sockets := setReady s.sockets i ReadyState.closed })
  | sockMsg (s : WSState) (i : Nat) (raw : String) :
      (s.sockets[i]?).map Prod.snd = some ReadyState.opened →
      Step s s
  | userChangeUrl (s : WSState) (u : String) :
      Step s (changeUrl s u)

/-- A manager state reachable from some freshly constructed instance. -/
def Reachable (s : WSState) : Prop :=
  ∃ u b, Relation.ReflTransGen Step (construct u b) s

/-- Number of not-closed (live) sockets the manager ever created. -/
def liveCount (l : List Sock) : Nat :=
  l.countP (fun p => decide (p.2 ≠ ReadyState.closed))

/-- Number of sockets in state CONNECTING. -/
def connectingCount (l : List Sock) : Nat :=
  l.countP (fun p => decide (p.2 = ReadyState.connecting))

/-- Number of sockets in state OPEN. -/
def openCount (l : List Sock) : Nat :=
  l.countP (fun p => decide (p.2 = ReadyState.opened))

/-- The budget is exhausted and nothing is in flight: attempt counter past
the maximum, no pending timer, every socket closed. -/
def Exhausted (s : WSState) : Prop :=
  maxReconnectAttempts < s.reconnectAttempts ∧
  s.timerPending = false ∧
  liveCount s.sockets = 0

/-- No two adjacent `true` entries in a notification log. -/
def noAdjTrue : List Bool → Bool
  | [] => true
  | [_] => true
  | a :: b :: rest => (!(a && b)) && noAdjTrue (b :: rest)

/-- Inductive invariant of the manager's event loop:
at most one live socket; a pending reconnect timer implies every socket is
closed; if the last connection-state broadcast was `true` then no timer is
pending and no socket is CONNECTING; the broadcast log has no two adjacent
`true` entries; timers scheduled since the last open are bounded by the
attempt counter and by the maximum; every scheduled delay is 2000 ms. -/
def Inv (s : WSState) : Prop :=
  liveCount s.sockets ≤ 1 ∧
  (s.timerPending = true → liveCount s.sockets = 0) ∧
  (s.notifications.getLast? = some true →
     s.timerPending = false ∧ connectingCount s.sockets = 0) ∧
  noAdjTrue s.notifications = true ∧
  s.scheduledSinceOpen ≤ s.reconnectAttempts ∧
  s.scheduledSinceOpen ≤ maxReconnectAttempts ∧
  (∀ d ∈ s.scheduleLog, d = reconnectInterval)


/-- `messageCallbacks.forEach(cb => cb(data))` starting at registration
index `i`, as run inside the onmessage try/catch.  A callback is modelled
by its observable behaviour on the decoded value: `c d = none` is a normal
return, `c d = some e` a thrown exception.  The result records, in order,
which callback indices were invoked and with which value, and the
exception that aborted the `forEach`, if any (a throwing callback is
itself invoked before it throws, and the loop stops there). -/
def broadcastFrom {J E : Type} (i : Nat) :
    List (J → Option E) → J → List (Nat × J) × Option E
  | [], _ => ([], none)
  | c :: rest, d =>
    match c d with
    | some e => ([(i, d)], some e)
    | none =>
      let r := broadcastFrom (i + 1) rest d
      ((i, d) :: r.1, r.2)

/-- The full broadcast over the registered message callbacks. -/
def broadcast {J E : Type} (cbs : List (J → Option E)) (d : J) :
    List (Nat × J) × Option E :=
  broadcastFrom 0 cbs d

/-- The `onmessage` handler: `JSON.parse(event.data)` (modelled by the
`decode` parameter) and the broadcast loop run inside one try/catch whose
catch only logs.  The manager state is returned unchanged — the handler
never touches it — together with the callback invocations of this turn.
A decode failure invokes nothing; a callback exception is swallowed by the
same catch, so nothing escapes the receive path. -/
def onmessageStep {J E : Type} (decode : String → Option J)
    (cbs : List (J → Option E)) (s : WSState) (raw : String) :
    WSState × List (Nat × J) :=
  match decode raw with
  | none => (s, [])
  | some d => (s, (broadcast cbs d).1)

/-- `send(msg)`: if `isConnected()`, pass `JSON.stringify(msg)` (modelled
by the `serialize` parameter) to `socket.send` once; otherwise only log a
console warning and discard the message.  The returned list holds the
frames transmitted during the call; the manager state is untouched either
way, and the function is total — neither branch throws. -/
def send {J : Type} (serialize : J → String) (s : WSState) (msg : J) :
    WSState × List String :=
  if isConnected s then (s, [serialize msg])
  else (s, [])

/-- Local state of one `useWebSocket` adapter instance: its `error` value
(the `useState<Error | null>(null)` cell). -/
structure Adapter (E : Type) where
  error : Option E
deriving DecidableEq, Repr

/-- The try/catch in the adapter's `send` callback: an `Except.error e`
outcome of the underlying call is caught and stored in the adapter's local
`error` state — never rethrown to the consumer. -/
def handleSendResult {E : Type} (a : Adapter E) (s : WSState)
    (r : Except E (WSState × List String)) : Adapter E × WSState × List String :=
  match r with
  | Except.ok (t, out) => (a, t, out)
  | Except.error e => ({ a with error := some e }, s, [])

/-- The manager's `send` as seen through the adapter's try:
it returns normally. -/
def sendE {J E : Type} (serialize : J → String) (s : WSState) (msg : J) :
    Except E (WSState × List String) :=
  Except.ok (send serialize s msg)

/-- The adapter's `send` callback (useWebSocket lines 17-23). -/
def useWebSocketSend {J E : Type} (serialize : J → String) (a : Adapter E)
    (s : WSState) (msg : J) : Adapter E × WSState × List String :=
  handleSendResult a s (sendE serialize s msg)

/-- `getInstance(url?)`.  `inst` is the static `instance` field before the
call; the result is the instance after the call, which is also the
returned reference.  A JS falsy check `!url` treats both an absent and an
empty url as missing.  `ctorThrows` feeds the constructor's `connect` when
a new instance is built. -/
def getInstance (inst : Option WSState) (u : Option String) (ctorThrows : Bool) :
    Except String WSState :=
  match inst with
  | none =>
    match u with
    | none => Except.error "WebSocket URL must be provided for the first instance"
    | some url =>
      if url = "" then
        Except.error "WebSocket URL must be provided for the first instance"
      else Except.ok (construct url ctorThrows)
  | some i =>
    match u with
    | none => Except.ok i
    | some url =>
      if url = "" then Except.ok i
      else if i.url ≠ url then Except.ok (changeUrl i url)
      else Except.ok i

/-- `n` consecutive invocations of `scheduleReconnect`. -/
def schedN : Nat → WSState → WSState
  | 0, s => s
  | n + 1, s => schedN n (scheduleReconnect s)

/-- Concrete trace: construction against "wsa" succeeds synchronously,
then the handshake of socket 0 fails (close event). -/
def cexS0 : WSState := construct "wsa" false

/-- ... socket 0 closes: `false` is broadcast, a retry is scheduled. -/
def cexS1 : WSState :=
  onclose { cexS0 with sockets := setReady cexS0.sockets 0 ReadyState.closed }

/-- ... the retry timer fires and socket 1 is created CONNECTING. -/
def cexS2 : WSState := connect { cexS1 with timerPending := false } false

/-- ... socket 1 also fails: a second consecutive `false` broadcast. -/
def cexS3 : WSState :=
  onclose { cexS2 with sockets := setReady cexS2.sockets 1 ReadyState.closed }

/-- A connected state: socket 0 completed its handshake. -/
def openS : WSState :=
  onopen { cexS0 with sockets := setReady cexS0.sockets 0 ReadyState.opened }

/-- A reconnect timer fires and `new WebSocket` throws synchronously. -/
def fireThrow (s : WSState) : WSState :=
  connect { s with timerPending := false } true

/-- Construction against "wsa" where `new WebSocket` throws at once. -/
def ex0 : WSState := construct "wsa" true

def ex1 : WSState := fireThrow ex0
def ex2 : WSState := fireThrow ex1
def ex3 : WSState := fireThrow ex2
def ex4 : WSState := fireThrow ex3
def ex5 : WSState := fireThrow ex4
def ex6 : WSState := fireThrow ex5
def ex7 : WSState := fireThrow ex6
def ex8 : WSState := fireThrow ex7
def ex9 : WSState := fireThrow ex8

/-- The state after the constructor failure plus ten failed reconnect
attempts: the attempt counter stands at 11 > 10 and no timer is pending. -/
def exhaustedState : WSState := fireThrow ex9

theorem noAdjTrue_concat : ∀ (l : List Bool) (b : Bool),
    noAdjTrue l = true → (b = true → l.getLast? ≠ some true) →
    noAdjTrue (l ++ [b]) = true
  | [], b, _, _ => by cases b <;> rfl
  | [a], b, _, hb => by
      cases a
      · cases b <;> rfl
      · cases b
        · rfl
        · exact absurd rfl (hb rfl)
  | a :: c :: rest, b, h, hb => by
      have h1 : (!(a && c)) = true ∧ noAdjTrue (c :: rest) = true := by
        simpa [noAdjTrue, Bool.and_eq_true] using h
      have hb' : b = true → (c :: rest).getLast? ≠ some true := by
        intro hbt
        simpa [List.getLast?_cons_cons] using hb hbt
      have ih := noAdjTrue_concat (c :: rest) b h1.2 hb'
      show noAdjTrue (a :: c :: (rest ++ [b])) = true
      have : noAdjTrue (a :: c :: (rest ++ [b]))
          = ((!(a && c)) && noAdjTrue (c :: (rest ++ [b]))) := rfl
      rw [this, h1.1]
      simpa using ih

theorem countP_setReady (q : ReadyState → Bool) :
    ∀ (l : List Sock) (i : Nat) (a : String) (r0 r : ReadyState),
    l[i]? = some (a, r0) →
    (setReady l i r).countP (fun p => q p.2) + (if q r0 then 1 else 0)
      = l.countP (fun p => q p.2) + (if q r then 1 else 0)
  | [], i, a, r0, r, h => by simp at h
  | p :: rest, 0, a, r0, r, h => by
      have hp : p = (a, r0) := by simpa using h
      subst hp
      show ((a, r) :: rest).countP (fun p => q p.2) + _ = _
      cases hq : q r <;> cases hq0 : q r0 <;>
        simp [List.countP_cons, hq, hq0]
  | p :: rest, Nat.succ i, a, r0, r, h => by
      have h' : rest[i]? = some (a, r0) := by simpa using h
      have ih := countP_setReady q rest i a r0 r h'
      show (p :: setReady rest i r).countP (fun p => q p.2) + _ = _
      cases hq : q p.2 <;> simp [List.countP_cons, hq] <;> omega

theorem countP_snd_pos (q : ReadyState → Bool) (l : List Sock) (i : Nat)
    (a : String) (r : ReadyState) (h : l[i]? = some (a, r)) (hq : q r = true) :
    0 < l.countP (fun p => q p.2) := by
  refine List.countP_pos_iff.mpr ⟨(a, r), List.getElem?_mem h, hq⟩

theorem liveCount_closeSocket (l : List Sock) (i : Nat) :
    liveCount (closeSocket l i) = liveCount l := by
  unfold closeSocket
  cases h : l[i]? with
  | none => rfl
  | some p =>
    obtain ⟨a, r⟩ := p
    cases r with
    | connecting =>
        have hc : liveCount (setReady l i ReadyState.closing) + 1 = liveCount l + 1 :=
          countP_setReady (fun r => decide (r ≠ ReadyState.closed))
            l i a ReadyState.connecting ReadyState.closing h
        exact Nat.add_right_cancel hc
    | opened =>
        have hc : liveCount (setReady l i ReadyState.closing) + 1 = liveCount l + 1 :=
          countP_setReady (fun r => decide (r ≠ ReadyState.closed))
            l i a ReadyState.opened ReadyState.closing h
        exact Nat.add_right_cancel hc
    | closing => rfl
    | closed => rfl

theorem connectingCount_closeSocket_le (l : List Sock) (i : Nat) :
    connectingCount (closeSocket l i) ≤ connectingCount l := by
  unfold closeSocket
  cases h : l[i]? with
  | none => exact Nat.le_refl _
  | some p =>
    obtain ⟨a, r⟩ := p
    cases r with
    | connecting =>
        have hc : connectingCount (setReady l i ReadyState.closing) + 1
            = connectingCount l :=
          countP_setReady (fun r => decide (r = ReadyState.connecting))
            l i a ReadyState.connecting ReadyState.closing h
        show connectingCount (setReady l i ReadyState.closing) ≤ connectingCount l
        omega
    | opened =>
        have hc : connectingCount (setReady l i ReadyState.closing)
            = connectingCount l :=
          countP_setReady (fun r => decide (r = ReadyState.connecting))
            l i a ReadyState.opened ReadyState.closing h
        show connectingCount (setReady l i ReadyState.closing) ≤ connectingCount l
        omega
    | closing => exact Nat.le_refl _
    | closed => exact Nat.le_refl _

theorem connectingCount_le_liveCount (l : List Sock) :
    connectingCount l ≤ liveCount l := by
  refine List.countP_mono_left ?_
  intro p _ hp
  simp at hp ⊢
  simp [hp]

theorem openCount_le_liveCount (l : List Sock) :
    openCount l ≤ liveCount l := by
  refine List.countP_mono_left ?_
  intro p _ hp
  simp at hp ⊢
  simp [hp]

theorem allClosed_of_liveCount_zero (l : List Sock) (h : liveCount l = 0)
    (i : Nat) (a : String) (r : ReadyState) (hg : l[i]? = some (a, r)) :
    r = ReadyState.closed := by
  have hm := List.getElem?_mem hg
  have := List.countP_eq_zero.mp h _ hm
  simpa using this

theorem isConnected_false_of_liveCount_zero (s : WSState)
    (h : liveCount s.sockets = 0) : isConnected s = false := by
  unfold isConnected
  cases hs : s.socketId with
  | none => rfl
  | some i =>
    show (match s.sockets[i]? with
          | some (_, r) => decide (r = ReadyState.opened)
          | none => false) = false
    cases hg : s.sockets[i]? with
    | none => rfl
    | some p =>
      obtain ⟨a, r⟩ := p
      have hr := allClosed_of_liveCount_zero s.sockets h i a r hg
      subst hr
      rfl

theorem closeSocket_of_liveCount_zero (l : List Sock) (i : Nat)
    (h : liveCount l = 0) : closeSocket l i = l := by
  unfold closeSocket
  cases hg : l[i]? with
  | none => rfl
  | some p =>
    obtain ⟨a, r⟩ := p
    have hr := allClosed_of_liveCount_zero l h i a r hg
    subst hr
    rfl

/-- `changeUrl` only touches the stored url and possibly moves one socket
from CONNECTING/OPEN to CLOSING; every other field and the live-socket
count are unchanged. -/
theorem changeUrl_fields (s : WSState) (u : String) :
    (changeUrl s u).reconnectAttempts = s.reconnectAttempts ∧
    (changeUrl s u).timerPending = s.timerPending ∧
    (changeUrl s u).notifications = s.notifications ∧
    (changeUrl s u).scheduleLog = s.scheduleLog ∧
    (changeUrl s u).scheduledSinceOpen = s.scheduledSinceOpen ∧
    liveCount (changeUrl s u).sockets = liveCount s.sockets ∧
    connectingCount (changeUrl s u).sockets ≤ connectingCount s.sockets := by
  unfold changeUrl
  by_cases he : s.url = u
  · rw [if_pos he]
    exact ⟨rfl, rfl, rfl, rfl, rfl, rfl, Nat.le_refl _⟩
  · rw [if_neg he]
    cases s.socketId with
    | none => exact ⟨rfl, rfl, rfl, rfl, rfl, rfl, Nat.le_refl _⟩
    | some i =>
        exact ⟨rfl, rfl, rfl, rfl, rfl, liveCount_closeSocket s.sockets i,
          connectingCount_closeSocket_le s.sockets i⟩

theorem inv_scheduleReconnect (s : WSState)
    (h0 : liveCount s.sockets = 0)
    (hnt : s.notifications.getLast? ≠ some true)
    (hadj : noAdjTrue s.notifications = true)
    (h5 : s.scheduledSinceOpen ≤ s.reconnectAttempts)
    (h6 : s.scheduledSinceOpen ≤ maxReconnectAttempts)
    (h7 : ∀ d ∈ s.scheduleLog, d = reconnectInterval) :
    Inv (scheduleReconnect s) := by
  unfold scheduleReconnect
  by_cases hc : s.reconnectAttempts + 1 ≤ maxReconnectAttempts
  · rw [if_pos hc]
    refine ⟨?_, ?_, ?_, ?_, ?_, ?_, ?_⟩
    · show liveCount s.sockets ≤ 1
      omega
    · intro _
      exact h0
    · intro he
      exact absurd he hnt
    · exact hadj
    · show s.scheduledSinceOpen + 1 ≤ s.reconnectAttempts + 1
      omega
    · show s.scheduledSinceOpen + 1 ≤ maxReconnectAttempts
      omega
    · intro d hd
      rcases List.mem_append.mp hd with hd | hd
      · exact h7 d hd
      · simpa using hd
  · rw [if_neg hc]
    refine ⟨?_, ?_, ?_, ?_, ?_, ?_, ?_⟩
    · show liveCount s.sockets ≤ 1
      omega
    · intro _
      exact h0
    · intro he
      exact absurd he hnt
    · exact hadj
    · show s.scheduledSinceOpen ≤ s.reconnectAttempts + 1
      omega
    · exact h6
    · exact h7

theorem inv_construct (u : String) (b : Bool) : Inv (construct u b) := by
  cases b with
  | false =>
      refine ⟨?_, ?_, ?_, ?_, ?_, ?_, ?_⟩ <;>
        simp [construct, connect, liveCount, connectingCount, noAdjTrue,
          List.countP_cons]
  | true =>
      refine ⟨?_, ?_, ?_, ?_, ?_, ?_, ?_⟩ <;>
        simp [construct, connect, scheduleReconnect, liveCount,
          connectingCount, noAdjTrue, maxReconnectAttempts, List.countP_cons]

theorem inv_step {s t : WSState} (hs : Inv s) (hstep : Step s t) : Inv t := by
  obtain ⟨h1, h2, h3, h4, h5, h6, h7⟩ := hs
  cases hstep with
  | timerFire b hp =>
      have h0 : liveCount s.sockets = 0 := h2 hp
      have hnt : s.notifications.getLast? ≠ some true := by
        intro he
        have hf := (h3 he).1
        rw [hf] at hp
        exact Bool.false_ne_true hp
      cases b with
      | true =>
          show Inv (scheduleReconnect { s with timerPending := false })
          exact inv_scheduleReconnect _ h0 hnt h4 h5 h6 h7
      | false =>
          refine ⟨?_, ?_, ?_, ?_, ?_, ?_, ?_⟩
          · show liveCount (s.sockets ++ [(s.url, ReadyState.connecting)]) ≤ 1
            have happ : liveCount (s.sockets ++ [(s.url, ReadyState.connecting)])
                = liveCount s.sockets + 1 := by
              unfold liveCount
              rw [List.countP_append]
              simp [List.countP_cons]
            omega
          · intro hpe
            exact absurd hpe Bool.false_ne_true
          · intro he
            exact absurd he hnt
          · exact h4
          · exact h5
          · exact h6
          · exact h7
  | sockOpen i hg =>
      obtain ⟨⟨a, r⟩, hgi, hr⟩ := Option.map_eq_some'.mp hg
      have hrc : r = ReadyState.connecting := hr
      subst hrc
      have hposc : 0 < connectingCount s.sockets := by
        unfold connectingCount
        exact countP_snd_pos (fun x => decide (x = ReadyState.connecting))
          s.sockets i a _ hgi (by decide)
      have hposl : 0 < liveCount s.sockets := by
        unfold liveCount
        exact countP_snd_pos (fun x => decide (x ≠ ReadyState.closed))
          s.sockets i a _ hgi (by decide)
      have hpend : s.timerPending = false := by
        cases hpe : s.timerPending
        · rfl
        · have := h2 hpe
          omega
      have hlast : s.notifications.getLast? ≠ some true := by
        intro he
        have := (h3 he).2
        omega
      have hlive : liveCount (setReady s.sockets i ReadyState.opened) + 1
          = liveCount s.sockets + 1 :=
        countP_setReady (fun x => decide (x ≠ ReadyState.closed))
          s.sockets i a ReadyState.connecting ReadyState.opened hgi
      have hconn : connectingCount (setReady s.sockets i ReadyState.opened) + 1
          = connectingCount s.sockets :=
        countP_setReady (fun x => decide (x = ReadyState.connecting))
          s.sockets i a ReadyState.connecting ReadyState.opened hgi
      have hcl := connectingCount_le_liveCount s.sockets
      refine ⟨?_, ?_, ?_, ?_, ?_, ?_, ?_⟩
      · show liveCount (setReady s.sockets i ReadyState.opened) ≤ 1
        omega
      · intro hpe
        rw [hpend] at hpe
        exact absurd hpe Bool.false_ne_true
      · intro _
        refine ⟨hpend, ?_⟩
        show connectingCount (setReady s.sockets i ReadyState.opened) = 0
        omega
      · show noAdjTrue (s.notifications ++ [true]) = true
        exact noAdjTrue_concat _ _ h4 (fun _ => hlast)
      · show (0 : Nat) ≤ 0
        exact Nat.le_refl 0
      · show (0 : Nat) ≤ maxReconnectAttempts
        exact Nat.zero_le _
      · exact h7
  | sockClose i r hg hr =>
      obtain ⟨⟨a, r'⟩, hgi, hr'⟩ := Option.map_eq_some'.mp hg
      have hrr : r' = r := hr'
      subst hrr
      have hposl : 0 < liveCount s.sockets := by
        unfold liveCount
        exact countP_snd_pos (fun x => decide (x ≠ ReadyState.closed))
          s.sockets i a _ hgi (decide_eq_true hr)
      have hc : liveCount (setReady s.sockets i ReadyState.closed) + 1
          = liveCount s.sockets := by
        have hc0 := countP_setReady (fun x => decide (x ≠ ReadyState.closed))
          s.sockets i a r' ReadyState.closed hgi
        rw [if_pos (decide_eq_true hr), if_neg (by decide)] at hc0
        exact hc0
      refine inv_scheduleReconnect _ ?_ ?_ ?_ ?_ ?_ ?_
      · show liveCount (setReady s.sockets i ReadyState.closed) = 0
        omega
      · show (s.notifications ++ [false]).getLast? ≠ some true
        rw [List.getLast?_concat]
        simp
      · show noAdjTrue (s.notifications ++ [false]) = true
        exact noAdjTrue_concat _ _ h4 (fun hb => absurd hb Bool.false_ne_true)
      · exact h5
      · exact h6
      · exact h7
  | sockMsg i raw hg =>
      exact ⟨h1, h2, h3, h4, h5, h6, h7⟩
  | userChangeUrl u =>
      obtain ⟨f1, f2, f3, f4, f5, f6, f7⟩ := changeUrl_fields s u
      refine ⟨?_, ?_, ?_, ?_, ?_, ?_, ?_⟩
      · rw [f6]
        exact h1
      · intro hpe
        rw [f2] at hpe
        rw [f6]
        exact h2 hpe
      · intro he
        rw [f3] at he
        obtain ⟨hpf, hcz⟩ := h3 he
        refine ⟨f2.trans hpf, ?_⟩
        omega
      · rw [f3]
        exact h4
      · rw [f5, f1]
        exact h5
      · rw [f5]
        exact h6
      · rw [f4]
        exact h7

theorem inv_reachable {s : WSState} (h : Reachable s) : Inv s := by
  obtain ⟨u, b, hr⟩ := h
  induction hr with
  | refl => exact inv_construct u b
  | tail _ hstep ih => exact inv_step ih hstep

theorem exhausted_step {s t : WSState} (he : Exhausted s) (hstep : Step s t) :
    Exhausted t ∧ t.scheduleLog = s.scheduleLog := by
  obtain ⟨hm, hp, hl⟩ := he
  cases hstep with
  | timerFire b hpe =>
      rw [hp] at hpe
      exact absurd hpe Bool.false_ne_true
  | sockOpen i hg =>
      obtain ⟨⟨a, r⟩, hgi, hr⟩ := Option.map_eq_some'.mp hg
      have hrc : r = ReadyState.connecting := hr
      have hcl := allClosed_of_liveCount_zero s.sockets hl i a r hgi
      rw [hrc] at hcl
      exact absurd hcl (by decide)
  | sockClose i r hg hr =>
      obtain ⟨⟨a, r'⟩, hgi, hr'⟩ := Option.map_eq_some'.mp hg
      have hrr : r' = r := hr'
      have hcl := allClosed_of_liveCount_zero s.sockets hl i a r' hgi
      rw [hrr] at hcl
      exact absurd hcl hr
  | sockMsg i raw hg =>
      exact ⟨⟨hm, hp, hl⟩, rfl⟩
  | userChangeUrl u =>
      obtain ⟨f1, f2, f3, f4, f5, f6, f7⟩ := changeUrl_fields s u
      refine ⟨⟨?_, ?_, ?_⟩, f4⟩
      · rw [f1]
        exact hm
      · rw [f2]
        exact hp
      · rw [f6]
        exact hl

theorem exhausted_forever {s t : WSState} (he : Exhausted s)
    (h : Relation.ReflTransGen Step s t) :
    Exhausted t ∧ t.scheduleLog = s.scheduleLog := by
  induction h with
  | refl => exact ⟨he, rfl⟩
  | tail _ hstep ih =>
      obtain ⟨he1, hlog⟩ := ih
      obtain ⟨he2, hlog2⟩ := exhausted_step he1 hstep
      exact ⟨he2, hlog2.trans hlog⟩

theorem broadcastFrom_ok {J E : Type} :
    ∀ (cbs : List (J → Option E)) (i : Nat) (d : J),
    (∀ c ∈ cbs, c d = none) →
    broadcastFrom i cbs d
      = ((List.range' i cbs.length).map (fun k => (k, d)), none)
  | [], i, d, _ => by simp [broadcastFrom]
  | c :: rest, i, d, h => by
      have hc : c d = none := h c (List.mem_cons_self c rest)
      have ih := broadcastFrom_ok rest (i + 1) d
        (fun g hg => h g (List.mem_cons_of_mem _ hg))
      simp [broadcastFrom, hc, ih, List.range']

theorem broadcast_ok {J E : Type} (cbs : List (J → Option E)) (d : J)
    (h : ∀ c ∈ cbs, c d = none) :
    broadcast cbs d = ((List.range cbs.length).map (fun k => (k, d)), none) := by
  unfold broadcast
  rw [broadcastFrom_ok cbs 0 d h, List.range_eq_range']

theorem broadcastFrom_throw {J E : Type} :
    ∀ (cbs₁ : List (J → Option E)) (c : J → Option E)
      (cbs₂ : List (J → Option E)) (i : Nat) (d : J) (e : E),
    (∀ f ∈ cbs₁, f d = none) → c d = some e →
    broadcastFrom i (cbs₁ ++ c :: cbs₂) d
      = ((List.range' i (cbs₁.length + 1)).map (fun k => (k, d)), some e)
  | [], c, cbs₂, i, d, e, _, hc => by
      simp [broadcastFrom, hc, List.range']
  | f :: rest, c, cbs₂, i, d, e, h1, hc => by
      have hf : f d = none := h1 f (List.mem_cons_self f rest)
      have ih := broadcastFrom_throw rest c cbs₂ (i + 1) d e
        (fun g hg => h1 g (List.mem_cons_of_mem _ hg)) hc
      simp [broadcastFrom, hf, ih, List.range']

theorem broadcast_throw {J E : Type} (cbs₁ cbs₂ : List (J → Option E))
    (c : J → Option E) (d : J) (e : E)
    (h1 : ∀ f ∈ cbs₁, f d = none) (hc : c d = some e) :
    broadcast (cbs₁ ++ c :: cbs₂) d
      = ((List.range (cbs₁.length + 1)).map (fun k => (k, d)), some e) := by
  unfold broadcast
  rw [broadcastFrom_throw cbs₁ c cbs₂ 0 d e h1 hc, List.range_eq_range']

theorem schedN_budget : ∀ (n : Nat) (t : WSState),
    t.reconnectAttempts + n ≤ maxReconnectAttempts →
    (schedN n t).scheduleLog.length = t.scheduleLog.length + n ∧
    (schedN n t).reconnectAttempts = t.reconnectAttempts + n
  | 0, t, _ => ⟨rfl, rfl⟩
  | n + 1, t, h => by
      have hc : t.reconnectAttempts + 1 ≤ maxReconnectAttempts := by omega
      have e1 : (scheduleReconnect t).reconnectAttempts
          = t.reconnectAttempts + 1 := by
        unfold scheduleReconnect
        rw [if_pos hc]
      have e2 : (scheduleReconnect t).scheduleLog
          = t.scheduleLog ++ [reconnectInterval] := by
        unfold scheduleReconnect
        rw [if_pos hc]
      have ih := schedN_budget n (scheduleReconnect t) (by rw [e1]; omega)
      obtain ⟨ih1, ih2⟩ := ih
      rw [e1] at ih2
      rw [e2] at ih1
      simp only [List.length_append, List.length_cons, List.length_nil] at ih1
      show (schedN n (scheduleReconnect t)).scheduleLog.length
          = t.scheduleLog.length + (n + 1) ∧
        (schedN n (scheduleReconnect t)).reconnectAttempts
          = t.reconnectAttempts + (n + 1)
      constructor
      · omega
      · omega

theorem cexS3_reachable : Reachable cexS3 := by
  refine ⟨"wsa", false, ?_⟩
  have s1 : Step cexS0 cexS1 :=
    Step.sockClose cexS0 0 ReadyState.connecting (by decide) (by decide)
  have s2 : Step cexS1 cexS2 := Step.timerFire cexS1 false (by decide)
  have s3 : Step cexS2 cexS3 :=
    Step.sockClose cexS2 1 ReadyState.connecting (by decide) (by decide)
  exact Relation.ReflTransGen.tail
    (Relation.ReflTransGen.tail (Relation.ReflTransGen.single s1) s2) s3

theorem openS_reachable : Reachable openS :=
  ⟨"wsa", false,
    Relation.ReflTransGen.single (Step.sockOpen cexS0 0 (by decide))⟩

theorem exhaustedState_reachable : Reachable exhaustedState := by
  refine ⟨"wsa", true, ?_⟩
  have s1 : Step ex0 ex1 := Step.timerFire ex0 true (by decide)
  have s2 : Step ex1 ex2 := Step.timerFire ex1 true (by decide)
  have s3 : Step ex2 ex3 := Step.timerFire ex2 true (by decide)
  have s4 : Step ex3 ex4 := Step.timerFire ex3 true (by decide)
  have s5 : Step ex4 ex5 := Step.timerFire ex4 true (by decide)
  have s6 : Step ex5 ex6 := Step.timerFire ex5 true (by decide)
  have s7 : Step ex6 ex7 := Step.timerFire ex6 true (by decide)
  have s8 : Step ex7 ex8 := Step.timerFire ex7 true (by decide)
  have s9 : Step ex8 ex9 := Step.timerFire ex8 true (by decide)
  have s10 : Step ex9 exhaustedState := Step.timerFire ex9 true (by decide)
  exact Relation.ReflTransGen.tail (Relation.ReflTransGen.tail
    (Relation.ReflTransGen.tail (Relation.ReflTransGen.tail
      (Relation.ReflTransGen.tail (Relation.ReflTransGen.tail
        (Relation.ReflTransGen.tail (Relation.ReflTransGen.tail
          (Relation.ReflTransGen.tail
            (Relation.ReflTransGen.single s1) s2) s3) s4) s5) s6) s7) s8) s9)
    s10

theorem scheduleReconnect_notifications (s : WSState) :
    (scheduleReconnect s).notifications = s.notifications := by
  unfold scheduleReconnect
  by_cases hc : s.reconnectAttempts + 1 ≤ maxReconnectAttempts
  · rw [if_pos hc]
  · rw [if_neg hc]

theorem onclose_notifications (t : WSState) :
    (onclose t).notifications = t.notifications ++ [false] := by
  unfold onclose
  rw [scheduleReconnect_notifications]

/-- C1 (Reconnect budget respected): in every reachable state at most
`maxReconnectAttempts = 10` reconnect timers have been scheduled since the
last successful open — so after 10 consecutive failed attempts with no
intervening open no 11th attempt is ever scheduled — and every scheduled
delay is the fixed 2000 ms; `scheduleReconnect` increments the attempt
counter before deciding, and schedules exactly when the incremented
counter is still within the maximum; and once the budget is exhausted the
manager still answers `isConnected() = false` and every further execution
keeps it exhausted with no new timer ever scheduled. -/
theorem reconnect_budget_respected (s : WSState) (hs : Reachable s) :
    s.scheduledSinceOpen ≤ maxReconnectAttempts ∧
    (∀ d ∈ s.scheduleLog, d = reconnectInterval) ∧
    (∀ t : WSState,
      (scheduleReconnect t).reconnectAttempts = t.reconnectAttempts + 1) ∧
    (∀ t : WSState, (scheduleReconnect t).scheduleLog =
      if t.reconnectAttempts + 1 ≤ maxReconnectAttempts
      then t.scheduleLog ++ [reconnectInterval] else t.scheduleLog) ∧
    (Exhausted s → isConnected s = false ∧
      ∀ t, Relation.ReflTransGen Step s t →
        Exhausted t ∧ t.scheduleLog = s.scheduleLog) := by
  obtain ⟨h1, h2, h3, h4, h5, h6, h7⟩ := inv_reachable hs
  refine ⟨h6, h7, ?_, ?_, ?_⟩
  · intro t
    unfold scheduleReconnect
    by_cases hc : t.reconnectAttempts + 1 ≤ maxReconnectAttempts
    · rw [if_pos hc]
    · rw [if_neg hc]
  · intro t
    unfold scheduleReconnect
    by_cases hc : t.reconnectAttempts + 1 ≤ maxReconnectAttempts
    · rw [if_pos hc, if_pos hc]
    · rw [if_neg hc, if_neg hc]
  · intro hex
    refine ⟨isConnected_false_of_liveCount_zero s hex.2.2, ?_⟩
    intro t ht
    exact exhausted_forever hex ht

/-- C1 witness at a freshly constructed manager. -/
theorem reconnect_budget_respected_witness :
    cexS0.scheduledSinceOpen ≤ maxReconnectAttempts ∧
    (∀ d ∈ cexS0.scheduleLog, d = reconnectInterval) ∧
    (∀ t : WSState,
      (scheduleReconnect t).reconnectAttempts = t.reconnectAttempts + 1) ∧
    (∀ t : WSState, (scheduleReconnect t).scheduleLog =
      if t.reconnectAttempts + 1 ≤ maxReconnectAttempts
      then t.scheduleLog ++ [reconnectInterval] else t.scheduleLog) ∧
    (Exhausted cexS0 → isConnected cexS0 = false ∧
      ∀ t, Relation.ReflTransGen Step cexS0 t →
        Exhausted t ∧ t.scheduleLog = cexS0.scheduleLog) :=
  reconnect_budget_respected cexS0 ⟨"wsa", false, Relation.ReflTransGen.refl⟩

/-- C2 counterexample: after two consecutive failed connection attempts the
connection-state callbacks have been handed `false` twice in a row — the
`onclose` handler notifies `false` unconditionally, with no check of the
previously delivered state, refuting the claimed de-duplication. -/
theorem dedup_notifications_counterexample :
    Reachable cexS3 ∧ cexS3.notifications = [false, false] :=
  ⟨cexS3_reachable, by decide⟩

/-- C2 (amended): connection-state callbacks receive `false` on every close
event and `true` on every open event, with no de-duplication on the
`false` side — consecutive identical `false` notifications occur whenever
two connection attempts fail in a row — while two adjacent `true`
notifications never occur in any reachable state. -/
theorem state_notifications_no_dedup (s : WSState) (hs : Reachable s) :
    (∀ t : WSState, (onclose t).notifications = t.notifications ++ [false]) ∧
    (∀ t : WSState, (onopen t).notifications = t.notifications ++ [true]) ∧
    noAdjTrue s.notifications = true := by
  obtain ⟨_, _, _, h4, _, _, _⟩ := inv_reachable hs
  exact ⟨onclose_notifications, fun t => rfl, h4⟩

/-- C2 amended-claim witness at a reachable connected state. -/
theorem state_notifications_no_dedup_witness :
    (∀ t : WSState, (onclose t).notifications = t.notifications ++ [false]) ∧
    (∀ t : WSState, (onopen t).notifications = t.notifications ++ [true]) ∧
    noAdjTrue openS.notifications = true :=
  state_notifications_no_dedup openS openS_reachable

/-- C3 counterexample: two registered callbacks, the first throws on the
decoded frame `0`; the broadcast log shows only the invocation of callback
0 — callback 1, which does not throw, is never invoked for that frame, so
the broadcast loop is aborted by the exception. -/
theorem throwing_subscriber_counterexample :
    (broadcast [fun _ => some (), fun _ => (none : Option Unit)] (0 : Nat)).1
        = [(0, 0)] ∧
    ((1, 0) ∉
      (broadcast [fun _ => some (), fun _ => (none : Option Unit)] (0 : Nat)).1) :=
  ⟨rfl, by decide⟩

/-- C3 (amended): when a callback throws during a broadcast, the exception
is caught by the receive path's try/catch (the handler returns normally
and the manager state is untouched), but the broadcast loop is aborted at
the throwing callback: the callbacks before it and the thrower itself are
invoked once each, in order, and every callback registered after it is
skipped for that frame. -/
theorem throwing_subscriber_aborts_broadcast {J E : Type}
    (decode : String → Option J) (cbs₁ cbs₂ : List (J → Option E))
    (c : J → Option E) (s : WSState) (raw : String) (d : J) (e : E)
    (hdec : decode raw = some d)
    (h1 : ∀ f ∈ cbs₁, f d = none) (hc : c d = some e) :
    onmessageStep decode (cbs₁ ++ c :: cbs₂) s raw
      = (s, (List.range (cbs₁.length + 1)).map (fun k => (k, d))) := by
  unfold onmessageStep
  rw [hdec]
  show (s, (broadcast (cbs₁ ++ c :: cbs₂) d).1) = _
  rw [broadcast_throw cbs₁ cbs₂ c d e h1 hc]

/-- C3 amended-claim witness: one benign callback before a thrower, one
registered after it. -/
theorem throwing_subscriber_aborts_broadcast_witness :
    onmessageStep (fun _ => some 0)
      ([fun _ => (none : Option Unit)] ++ (fun _ => some ()) :: [fun _ => none])
      cexS0 "m"
      = (cexS0, [(0, 0), (1, 0)]) := by
  have h := throwing_subscriber_aborts_broadcast (fun _ => some (0 : Nat))
    [fun _ => (none : Option Unit)] [fun _ => none] (fun _ => some ())
    cexS0 "m" 0 () rfl (by simp) rfl
  simpa using h

/-- C4 (Broadcast completeness): a successfully decoded frame invokes each
of the `N` registered message callbacks exactly once, in registration
order, with the same decoded value, within the same synchronous handler
turn, and leaves the manager state unchanged — provided no callback
throws. -/
theorem broadcast_completeness {J E : Type} (decode : String → Option J)
    (cbs : List (J → Option E)) (s : WSState) (raw : String) (d : J)
    (hdec : decode raw = some d) (hok : ∀ c ∈ cbs, c d = none) :
    onmessageStep decode cbs s raw
      = (s, (List.range cbs.length).map (fun k => (k, d))) := by
  unfold onmessageStep
  rw [hdec]
  show (s, (broadcast cbs d).1) = _
  rw [broadcast_ok cbs d hok]

/-- C4 witness: two callbacks, both invoked once, in order. -/
theorem broadcast_completeness_witness :
    onmessageStep (fun _ => some 0)
      [fun _ => (none : Option Unit), fun _ => none] cexS0 "m"
      = (cexS0, [(0, 0), (1, 0)]) := by
  have h := broadcast_completeness (fun _ => some (0 : Nat))
    [fun _ => (none : Option Unit), fun _ => none] cexS0 "m" 0 rfl (by simp)
  simpa using h

/-- C5 (Attempt counter reset on success): the `onopen` handler sets the
attempt counter to 0 and notifies every connection-state callback with
`true`; from the reset state any `n ≤ max` subsequent failures schedule
`n` further reconnect attempts — the full budget is available again. -/
theorem attempt_counter_reset_on_success (s : WSState) (n : Nat)
    (hn : n ≤ maxReconnectAttempts) :
    (onopen s).reconnectAttempts = 0 ∧
    (onopen s).notifications = s.notifications ++ [true] ∧
    (schedN n (onopen s)).scheduleLog.length
      = (onopen s).scheduleLog.length + n := by
  refine ⟨rfl, rfl, ?_⟩
  have h := schedN_budget n (onopen s) (by show 0 + n ≤ _; omega)
  exact h.1

/-- C5 witness: after one failure and a success, the full 10-attempt
budget is available. -/
theorem attempt_counter_reset_on_success_witness :
    (onopen cexS1).reconnectAttempts = 0 ∧
    (onopen cexS1).notifications = cexS1.notifications ++ [true] ∧
    (schedN 10 (onopen cexS1)).scheduleLog.length
      = (onopen cexS1).scheduleLog.length + 10 :=
  attempt_counter_reset_on_success cexS1 10 (by decide)

/-- C6 (Decode-failure isolation): a frame whose payload fails to decode
invokes zero message callbacks, invokes zero connection-state callbacks,
and leaves the whole manager state — connection flag, active socket,
attempt counter, notification log — unchanged. -/
theorem decode_failure_isolation {J E : Type} (decode : String → Option J)
    (cbs : List (J → Option E)) (s : WSState) (raw : String)
    (hdec : decode raw = none) :
    onmessageStep decode cbs s raw = (s, []) ∧
    (onmessageStep decode cbs s raw).1.notifications = s.notifications ∧
    isConnected (onmessageStep decode cbs s raw).1 = isConnected s ∧
    (onmessageStep decode cbs s raw).1.reconnectAttempts
      = s.reconnectAttempts := by
  unfold onmessageStep
  rw [hdec]
  exact ⟨rfl, rfl, rfl, rfl⟩

/-- C6 witness on a malformed frame. -/
theorem decode_failure_isolation_witness :
    onmessageStep (fun _ => (none : Option Nat))
      [fun _ => (none : Option Unit)] openS "garbage" = (openS, []) ∧
    (onmessageStep (fun _ => (none : Option Nat))
      [fun _ => (none : Option Unit)] openS "garbage").1.notifications
      = openS.notifications ∧
    isConnected (onmessageStep (fun _ => (none : Option Nat))
      [fun _ => (none : Option Unit)] openS "garbage").1 = isConnected openS ∧
    (onmessageStep (fun _ => (none : Option Nat))
      [fun _ => (none : Option Unit)] openS "garbage").1.reconnectAttempts
      = openS.reconnectAttempts :=
  decode_failure_isolation (fun _ => none) [fun _ => none] openS "garbage" rfl

/-- C7 counterexample: in a disconnected state, `send` discards the message
with only a console warning and returns normally, and the adapter's local
`error` value stays `none` — the failure is NOT surfaced to the calling
adapter as an error value, refuting that part of the claim. -/
theorem send_error_not_surfaced_counterexample :
    isConnected cexS0 = false ∧
    send (fun _ : Nat => "x") cexS0 5 = (cexS0, []) ∧
    (useWebSocketSend (fun _ : Nat => "x") (⟨none⟩ : Adapter Unit) cexS0 5).1.error
      = none :=
  ⟨by decide, by decide, rfl⟩

/-- C7 (amended): if `isConnected()` the serialized message is transmitted
exactly once over the active socket with no retry and no state change;
otherwise the message is discarded with nothing transmitted and only a
console warning.  The call returns normally in both cases, so no exception
crosses the boundary, and the adapter's `error` value is left untouched;
an error value is stored in the adapter (and not rethrown) only when the
underlying send itself throws. -/
theorem send_semantics {J E : Type} (serialize : J → String) (s : WSState)
    (msg : J) (a : Adapter E) (e : E) :
    (isConnected s = true → send serialize s msg = (s, [serialize msg])) ∧
    (isConnected s = false → send serialize s msg = (s, [])) ∧
    useWebSocketSend serialize a s msg = (a, send serialize s msg) ∧
    handleSendResult a s (Except.error e)
      = ({ a with error := some e }, s, []) := by
  refine ⟨?_, ?_, rfl, rfl⟩
  · intro h
    unfold send
    rw [if_pos h]
  · intro h
    have hng : ¬ (isConnected s = true) := by simp [h]
    unfold send
    rw [if_neg hng]

/-- C7 amended-claim witness at a connected state. -/
theorem send_semantics_witness :
    send (fun _ : Nat => "x") openS 7 = (openS, ["x"]) ∧
    useWebSocketSend (fun _ : Nat => "x") (⟨none⟩ : Adapter Unit) openS 7
      = (⟨none⟩, send (fun _ : Nat => "x") openS 7) ∧
    handleSendResult (⟨none⟩ : Adapter Unit) openS (Except.error ())
      = (⟨some ()⟩, openS, []) := by
  have h := send_semantics (fun _ : Nat => "x") openS 7 (⟨none⟩ : Adapter Unit) ()
  exact ⟨h.1 (by decide), h.2.2.1, h.2.2.2⟩

/-- C8 counterexample: `exhaustedState` is reachable (a failed construction
followed by ten failed reconnect attempts drives the counter to 11); a
`changeUrl` to a different url stores the new endpoint but leaves the
attempt counter at 11 and pending-timer off, and the schedule log shows no
new attempt — the connection cycle is NOT restarted with a fresh budget. -/
theorem exhaustion_changeUrl_counterexample :
    Reachable exhaustedState ∧
    exhaustedState.reconnectAttempts = 11 ∧
    (changeUrl exhaustedState "wsb").url = "wsb" ∧
    (changeUrl exhaustedState "wsb").reconnectAttempts = 11 ∧
    (changeUrl exhaustedState "wsb").timerPending = false ∧
    (changeUrl exhaustedState "wsb").scheduleLog = exhaustedState.scheduleLog :=
  ⟨exhaustedState_reachable, by decide, by decide, by decide, by decide,
    by decide⟩

/-- C8 (amended): once the budget is exhausted the manager never reconnects
on its own — every further execution stays exhausted, keeps
`isConnected() = false` and schedules nothing; `changeUrl` with the
current url is a no-op, and `changeUrl` with a different url stores the
new endpoint and issues a close on the (already closed) socket but does
not reset the attempt counter: the state remains exhausted, so reconnection
does not resume against the new endpoint — recovery requires a new manager
instance. -/
theorem recovery_after_exhaustion (s t : WSState) (u : String)
    (hex : Exhausted s) :
    isConnected s = false ∧
    (s.url = u → changeUrl s u = s) ∧
    ((changeUrl s u).reconnectAttempts = s.reconnectAttempts ∧
      (changeUrl s u).timerPending = false ∧ Exhausted (changeUrl s u)) ∧
    (s.url ≠ u → (changeUrl s u).url = u) ∧
    (Relation.ReflTransGen Step s t →
      Exhausted t ∧ isConnected t = false ∧ t.scheduleLog = s.scheduleLog) := by
  obtain ⟨f1, f2, f3, f4, f5, f6, f7⟩ := changeUrl_fields s u
  refine ⟨isConnected_false_of_liveCount_zero s hex.2.2, ?_, ?_, ?_, ?_⟩
  · intro he
    unfold changeUrl
    rw [if_pos he]
  · refine ⟨f1, f2.trans hex.2.1, ?_, f2.trans hex.2.1, ?_⟩
    · rw [f1]
      exact hex.1
    · rw [f6]
      exact hex.2.2
  · intro hne
    unfold changeUrl
    rw [if_neg hne]
    cases s.socketId <;> rfl
  · intro ht
    obtain ⟨he2, hlog⟩ := exhausted_forever hex ht
    exact ⟨he2, isConnected_false_of_liveCount_zero t he2.2.2, hlog⟩

/-- C8 amended-claim witness at the concrete exhausted state. -/
theorem recovery_after_exhaustion_witness :
    isConnected exhaustedState = false ∧
    Exhausted (changeUrl exhaustedState "wsb") ∧
    (changeUrl exhaustedState "wsb").reconnectAttempts
      = exhaustedState.reconnectAttempts ∧
    Exhausted exhaustedState ∧ isConnected exhaustedState = false ∧
    exhaustedState.scheduleLog = exhaustedState.scheduleLog := by
  have h := recovery_after_exhaustion exhaustedState exhaustedState "wsb"
    ⟨by decide, by decide, by decide⟩
  exact ⟨h.1, h.2.2.1.2.2, h.2.2.1.1,
    h.2.2.2.2 Relation.ReflTransGen.refl⟩

/-- C9 (At most one live transport): in every reachable state at most one
socket owned by the manager is OPEN — indeed at most one is not fully
closed — so two open transports never coexist; moreover whenever a
reconnect timer is pending (the only path that creates a new socket) every
previously created socket is already closed, so the old connection is
closed before the new session is opened. -/
theorem at_most_one_live_transport (s : WSState) (hs : Reachable s) :
    openCount s.sockets ≤ 1 ∧
    liveCount s.sockets ≤ 1 ∧
    (s.timerPending = true → liveCount s.sockets = 0) := by
  obtain ⟨h1, h2, _, _, _, _, _⟩ := inv_reachable hs
  exact ⟨(openCount_le_liveCount s.sockets).trans h1, h1, h2⟩

/-- C9 witness at a reachable connected state. -/
theorem at_most_one_live_transport_witness :
    openCount openS.sockets ≤ 1 ∧
    liveCount openS.sockets ≤ 1 ∧
    (openS.timerPending = true → liveCount openS.sockets = 0) :=
  at_most_one_live_transport openS openS_reachable

/-- C10 (getInstance behaviour): with no instance, a call without a url
throws, and a call with a (truthy) url constructs the singleton, whose
constructor immediately begins connecting to that url; with an existing
instance, a differing url re-targets the shared connection exactly as a
`changeUrl` call, while an equal or omitted url returns the stored
instance unchanged; every non-throwing case returns the (possibly
updated) stored singleton. -/
theorem getInstance_behavior (i : WSState) (u url : String) (b : Bool)
    (hu : u ≠ "") (hurl : url ≠ "") (hne : i.url ≠ url) :
    getInstance none none b
      = Except.error "WebSocket URL must be provided for the first instance" ∧
    getInstance none (some u) b = Except.ok (construct u b) ∧
    (construct u false).sockets = [(u, ReadyState.connecting)] ∧
    (construct u false).url = u ∧
    getInstance (some i) (some url) b = Except.ok (changeUrl i url) ∧
    getInstance (some i) (some i.url) b = Except.ok i ∧
    getInstance (some i) none b = Except.ok i := by
  refine ⟨rfl, ?_, rfl, rfl, ?_, ?_, rfl⟩
  · show (if u = "" then
        Except.error "WebSocket URL must be provided for the first instance"
      else Except.ok (construct u b)) = Except.ok (construct u b)
    rw [if_neg hu]
  · show (if url = "" then Except.ok i
      else if i.url ≠ url then Except.ok (changeUrl i url) else Except.ok i)
      = Except.ok (changeUrl i url)
    rw [if_neg hurl, if_pos hne]
  · show (if i.url = "" then Except.ok i
      else if i.url ≠ i.url then Except.ok (changeUrl i i.url) else Except.ok i)
      = Except.ok i
    by_cases hz : i.url = ""
    · rw [if_pos hz]
    · rw [if_neg hz, if_neg (fun hx => hx rfl)]

/-- C10 witness on concrete instances and urls. -/
theorem getInstance_behavior_witness :
    getInstance none none false
      = Except.error "WebSocket URL must be provided for the first instance" ∧
    getInstance none (some "wsa") false = Except.ok (construct "wsa" false) ∧
    (construct "wsa" false).sockets = [("wsa", ReadyState.connecting)] ∧
    (construct "wsa" false).url = "wsa" ∧
    getInstance (some cexS0) (some "wsb") false
      = Except.ok (changeUrl cexS0 "wsb") ∧
    getInstance (some cexS0) (some cexS0.url) false = Except.ok cexS0 ∧
    getInstance (some cexS0) none false = Except.ok cexS0 :=
  getInstance_behavior cexS0 "wsa" "wsb" false (by decide) (by decide)
    (by decide)

end WS
